import Mathlib

/-!
Verification of the data-format-detection and data-processing stages of the
`mlops-v2-gha-demo` repository.  The definitions below are a shallow embedding
of `src/data-science/src/data_format_detector.py` and
`src/data-science/src/unified_data_processor.py`.

Modelling conventions:
* JSON values are an inductive `Json`; Python numbers are rationals (`Rat`).
* The input dataset directory is a list of file entries.  Each entry records
  whether it lies in a subdirectory (`nested = true`) or at top level, its
  basename, and an abstract payload.  `Path.glob` patterns are modelled by
  (case-sensitive) suffix matching on the basename; `glob("**/pat")` matches
  both top-level and nested entries, exactly as `pathlib` does.
* The sibling `.txt` annotation of an image file (`img.with_suffix(".txt")`)
  is attached to the image entry itself; a whitespace token of such a file is
  either a parseable float (`TxtField.val`) or not (`TxtField.nonNumeric`).
* Filesystem writes, directory creation and file copies are modelled as
  always succeeding; log output, timestamps and the human-readable
  `detection_logic` trace strings are not modelled.
* Python exceptions are modelled with `Except`/`PyResult`; per-file dynamic
  type errors that the source raises at first use are checked eagerly when
  the file is decoded (both paths end in the same per-file error handler).
-/

/-- Values produced by Python's `json.load`. -/
inductive Json where
  | null : Json
  | bool (b : Bool) : Json
  | num (q : Rat) : Json
  | str (s : String) : Json
  | arr (elems : List Json) : Json
  | obj (fields : List (String × Json)) : Json

mutual

/-- Decidable equality of JSON values (the derive handler does not support
this nested inductive). -/
def Json.decEq : (a b : Json) → Decidable (a = b)
  | .null, .null => .isTrue rfl
  | .bool a, .bool b =>
    if h : a = b then .isTrue (by rw [h])
    else .isFalse (by intro hh; cases hh; exact h rfl)
  | .num a, .num b =>
    if h : a = b then .isTrue (by rw [h])
    else .isFalse (by intro hh; cases hh; exact h rfl)
  | .str a, .str b =>
    if h : a = b then .isTrue (by rw [h])
    else .isFalse (by intro hh; cases hh; exact h rfl)
  | .arr a, .arr b =>
    match Json.decEqList a b with
    | .isTrue h => .isTrue (by rw [h])
    | .isFalse h => .isFalse (by intro hh; cases hh; exact h rfl)
  | .obj a, .obj b =>
    match Json.decEqFields a b with
    | .isTrue h => .isTrue (by rw [h])
    | .isFalse h => .isFalse (by intro hh; cases hh; exact h rfl)
  | .null, .bool _ | .null, .num _ | .null, .str _ | .null, .arr _
  | .null, .obj _ | .bool _, .null | .bool _, .num _ | .bool _, .str _
  | .bool _, .arr _ | .bool _, .obj _ | .num _, .null | .num _, .bool _
  | .num _, .str _ | .num _, .arr _ | .num _, .obj _ | .str _, .null
  | .str _, .bool _ | .str _, .num _ | .str _, .arr _ | .str _, .obj _
  | .arr _, .null | .arr _, .bool _ | .arr _, .num _ | .arr _, .str _
  | .arr _, .obj _ | .obj _, .null | .obj _, .bool _ | .obj _, .num _
  | .obj _, .str _ | .obj _, .arr _ => .isFalse (by intro hh; cases hh)

/-- Decidable equality of JSON value lists. -/
def Json.decEqList : (a b : List Json) → Decidable (a = b)
  | [], [] => .isTrue rfl
  | [], _ :: _ => .isFalse (by intro hh; cases hh)
  | _ :: _, [] => .isFalse (by intro hh; cases hh)
  | x :: xs, y :: ys =>
    match Json.decEq x y with
    | .isFalse h => .isFalse (by intro hh; cases hh; exact h rfl)
    | .isTrue h1 =>
      match Json.decEqList xs ys with
      | .isTrue h2 => .isTrue (by rw [h1, h2])
      | .isFalse h2 => .isFalse (by intro hh; cases hh; exact h2 rfl)

/-- Decidable equality of JSON object field lists. -/
def Json.decEqFields : (a b : List (String × Json)) → Decidable (a = b)
  | [], [] => .isTrue rfl
  | [], _ :: _ => .isFalse (by intro hh; cases hh)
  | _ :: _, [] => .isFalse (by intro hh; cases hh)
  | (k1, v1) :: xs, (k2, v2) :: ys =>
    if hk : k1 = k2 then
      match Json.decEq v1 v2 with
      | .isFalse h => .isFalse (by intro hh; cases hh; exact h rfl)
      | .isTrue hv =>
        match Json.decEqFields xs ys with
        | .isTrue h2 => .isTrue (by rw [hk, hv, h2])
        | .isFalse h2 => .isFalse (by intro hh; cases hh; exact h2 rfl)
    else .isFalse (by intro hh; cases hh; exact hk rfl)

end

instance : DecidableEq Json := Json.decEq

/-- Keys of a JSON object, in textual order (for the `key in data` test). -/
def Json.keys : Json → List String
  | .obj kvs => kvs.map Prod.fst
  | _ => []

/-- True exactly when the value is a Python `dict` (`isinstance(data, dict)`). -/
def Json.isObj : Json → Bool
  | .obj _ => true
  | _ => false

/-- Lookup in a `dict` built by `json.load`: with duplicate keys the last
occurrence wins, so we look the key up in the reversed field list. -/
def jLookup (kvs : List (String × Json)) (k : String) : Option Json :=
  kvs.reverse.lookup k

/-- One whitespace-separated token of a YOLO annotation line: either it parses
as a Python float with the given value, or it does not parse. -/
inductive TxtField where
  | val (q : Rat) : TxtField
  | nonNumeric : TxtField
deriving DecidableEq

/-- One line of an annotation text file, already split on whitespace. -/
abbrev TxtLine := List TxtField

/-- Abstract payload of a file in the input directory. -/
inductive FileContent where
  /-- Payload of a file that `json.load` would be tried on: `some j` when the
  file parses to the JSON value `j`, `none` when parsing raises. -/
  | jsonC (parsed : Option Json) : FileContent
  /-- Payload of an image file: `some lines` when the same-stem `.txt`
  annotation file exists and reads as `lines`, `none` otherwise. -/
  | imgC (siblingTxt : Option (List TxtLine)) : FileContent
  /-- Payload of any other file; its contents are never read. -/
  | plainC : FileContent
deriving DecidableEq

/-- One file of the input dataset directory. -/
structure DirEntry where
  /-- `true` when the file lies in a (possibly deep) subdirectory of the
  input path, `false` when it lies directly at top level. -/
  nested : Bool
  /-- Basename of the file (what `Path.name` returns). -/
  name : String
  content : FileContent
deriving DecidableEq

/-- The input dataset directory, as enumerated by `Path.rglob("*")`. -/
abbrev InputDir := List DirEntry

/-- Case-sensitive suffix test on basenames, over the character list (the
built-in `String.endsWith` does not reduce inside the kernel). -/
def strEndsWith (s suffix : String) : Bool :=
  suffix.toList.isSuffixOf s.toList

/-- Python `str.lower()`. -/
def strLower (s : String) : String :=
  ⟨s.toList.map Char.toLower⟩

/-- Does the basename match the glob pattern `*.json`? -/
def isJsonName (f : DirEntry) : Bool := strEndsWith f.name ".json"

/-- Does the basename match the glob pattern `*.txt`? -/
def isTxtName (f : DirEntry) : Bool := strEndsWith f.name ".txt"

/-- The image extensions inspected by detector and processor, in the order
the source lists them (the source iterates a `set`, whose order is
interpreter-dependent; we fix the literal order). -/
def imageExts : List String :=
  [".jpg", ".jpeg", ".png", ".bmp", ".tiff", ".webp"]

/-- Does the basename match one of the image-extension glob patterns? -/
def isImageName (f : DirEntry) : Bool := imageExts.any (strEndsWith f.name ·)

/-- Parse result of a file when read with `json.load` (non-`jsonC` payloads
fail to parse as JSON). -/
def jsonPayload (f : DirEntry) : Option Json :=
  match f.content with
  | .jsonC p => p
  | _ => none

/-- Annotation lines of the same-stem `.txt` file of an image entry. -/
def imgPayload (f : DirEntry) : Option (List TxtLine) :=
  match f.content with
  | .imgC a => a
  | _ => none

/-! ## Format detector: file enumerations (data_format_detector.py 107-157)

`list(input_path.glob("*.json")) + list(input_path.glob("**/*.json"))`:
the first glob yields the top-level matches, the second yields top-level and
nested matches (in `pathlib`, `**` also matches zero directories), so every
top-level match occurs twice in the concatenation. -/

/-- Matches of `glob("*.json")`: top-level `.json` files. -/
def topJsonFiles (d : InputDir) : List DirEntry :=
  d.filter (fun f => !f.nested && isJsonName f)

/-- The detector's `json_files` list: `glob("*.json") + glob("**/*.json")`. -/
def jsonFilesEnum (d : InputDir) : List DirEntry :=
  topJsonFiles d ++ d.filter isJsonName

/-- The detector's `txt_files` list: `glob("*.txt") + glob("**/*.txt")`. -/
def txtFilesEnum (d : InputDir) : List DirEntry :=
  d.filter (fun f => !f.nested && isTxtName f) ++ d.filter isTxtName

/-- The detector's `image_files` list: for each extension,
`glob(f"*{ext}")` followed by `glob(f"**/*{ext}")`. -/
def imageFilesEnum (d : InputDir) : List DirEntry :=
  (imageExts.map (fun e =>
    d.filter (fun f => !f.nested && strEndsWith f.name e)
      ++ d.filter (fun f => strEndsWith f.name e))).flatten

/-! ## Format detector: COCO scoring (data_format_detector.py 110-133) -/

/-- COCO points contributed by one occurrence of a JSON file in the
enumeration: +3 for a parsed object holding all of `images`, `annotations`,
`categories`; otherwise +1 for a parsed object holding `images` or
`annotations`; 0 for anything else (parse failures are skipped). -/
def cocoPoints (f : DirEntry) : Nat :=
  match jsonPayload f with
  | none => 0
  | some j =>
    if j.isObj
        && (["images", "annotations", "categories"].all (j.keys.contains ·)) then
      3
    else if j.isObj && (["images", "annotations"].any (j.keys.contains ·)) then
      1
    else 0

/-- The detector's `coco_indicators` tally. -/
def cocoScore (d : InputDir) : Nat :=
  ((jsonFilesEnum d).map cocoPoints).sum

/-- Did this occurrence take the strong `+3` branch (which also appends the
path to `files_analyzed`)? -/
def isStrongCoco (f : DirEntry) : Bool := cocoPoints f == 3

/-! ## Format detector: YOLO scoring (data_format_detector.py 136-194) -/

/-- The `txt_file.name.lower() in ["classes.txt", "class.names", "obj.names"]`
test of the classes-file loop. -/
def isClassesName (s : String) : Bool :=
  strLower s == "classes.txt" || strLower s == "class.names"
    || strLower s == "obj.names"

/-- Occurrences in the `txt_files` enumeration that name a classes file.
Each such occurrence adds +2 to `yolo_indicators`. -/
def classesOccurrences (d : InputDir) : List DirEntry :=
  (txtFilesEnum d).filter (fun f => isClassesName f.name)

/-- Is a split line a valid YOLO annotation line: at least 5 fields, and
fields 2-5 parse as floats within [0, 1]? -/
def validYoloLine (l : TxtLine) : Bool :=
  l.length ≥ 5 &&
    ((l.drop 1).take 4).all (fun t =>
      match t with
      | .val q => decide (0 ≤ q) && decide (q ≤ 1)
      | .nonNumeric => false)

/-- Does an image occurrence count towards `yolo_annotation_count`: its
same-stem `.txt` file exists and holds at least one valid YOLO line? -/
def imageHasYoloAnn (f : DirEntry) : Bool :=
  match imgPayload f with
  | some lines => lines.any validYoloLine
  | none => false

/-- The detector's `yolo_annotation_count`: over the first 10 occurrences of
the image enumeration (`image_files[:10]`). -/
def yoloAnnCount (d : InputDir) : Nat :=
  ((imageFilesEnum d).take 10).countP (fun f => imageHasYoloAnn f = true)

/-- Bonus added to `yolo_indicators` from the annotation count. -/
def yoloAnnBonus (n : Nat) : Nat :=
  if n ≥ 3 then 3 else if n > 0 then 1 else 0

/-- The detector's `yolo_indicators` tally. -/
def yoloScore (d : InputDir) : Nat :=
  2 * (classesOccurrences d).length + yoloAnnBonus (yoloAnnCount d)

/-! ## Format detector: files_analyzed (data_format_detector.py 96-147) -/

/-- The diagnostic report's `files_analyzed` list: the first 20 entries of
`rglob("*")`, then one append per strong-COCO occurrence of the JSON
enumeration, then one append per classes-file occurrence of the txt
enumeration. -/
def filesAnalyzed (d : InputDir) : List String :=
  (d.take 20).map (·.name)
    ++ (jsonFilesEnum d).filterMap
        (fun f => if isStrongCoco f then some f.name else none)
    ++ (txtFilesEnum d).filterMap
        (fun f => if isClassesName f.name then some f.name else none)

/-! ## Format detector: decision rule (data_format_detector.py 196-218) -/

/-- The decision part of the detector's `detection_results`. -/
structure FormatDecision where
  detected_format : String
  confidence : Rat
  conversion_needed : Bool
  skip_conversion : Bool
deriving DecidableEq

/-- Decision rule of the detector, verbatim from the source: COCO first
(winning ties), then YOLO, else unknown. -/
def decideFormat (coco_indicators yolo_indicators : Nat) : FormatDecision :=
  if coco_indicators ≥ yolo_indicators ∧ coco_indicators ≥ 2 then
    { detected_format := "coco"
      confidence := min 0.9 (0.3 + (coco_indicators : Rat) * 0.15)
      conversion_needed := true
      skip_conversion := false }
  else if yolo_indicators ≥ 2 then
    { detected_format := "yolo"
      confidence := min 0.9 (0.3 + (yolo_indicators : Rat) * 0.15)
      conversion_needed := false
      skip_conversion := true }
  else
    { detected_format := "unknown"
      confidence := 0.0
      conversion_needed := true
      skip_conversion := false }

/-! ## Format detector: whole stage (data_format_detector.py 20-264) -/

/-- Contents of the `format_info` output file (`detection_results`); the
`format_indicators` / `file_analysis` maps are carried by the decision's
score arguments and are not duplicated here. -/
structure DetectionResults where
  detected_format : String
  confidence : Rat
  conversion_needed : Bool
  skip_conversion : Bool
  /-- The `error` key added by the broad analysis handler (absent = `none`). -/
  error : Option String
deriving DecidableEq

/-- Contents of the `format_report` output file (`detailed_report`);
timestamp and the `detection_logic` trace strings are not modelled. -/
structure DetectionReport where
  files_analyzed : List String
  error : Option String
deriving DecidableEq

/-- Final state of one detector run: which of the two output files were
written, and with what contents. -/
structure DetectOutcome where
  format_info : Option DetectionResults
  format_report : Option DetectionReport
deriving DecidableEq

/-- Initial `detection_results` dict (lines 72-79). -/
def initialResults : DetectionResults :=
  { detected_format := "unknown", confidence := 0.0
    conversion_needed := true, skip_conversion := false, error := none }

/-- The whole detector stage.  `input` is `none` when the input path does not
exist.  `fault` models an unexpected exception inside the broad analysis
`try` block (modelled as occurring at its start); `none` means the analysis
runs to completion.  Filesystem writes are modelled as succeeding. -/
def detect_data_format (input : Option InputDir) (fault : Option String) :
    DetectOutcome :=
  match input with
  | none =>
    { format_info := some initialResults
      format_report :=
        some { files_analyzed := [], error := some "Input path does not exist" } }
  | some d =>
    match fault with
    | some e =>
      { format_info :=
          some { initialResults with detected_format := "error", error := some e }
        format_report := some { files_analyzed := [], error := none } }
    | none =>
      let dec := decideFormat (cocoScore d) (yoloScore d)
      { format_info :=
          some { detected_format := dec.detected_format
                 confidence := dec.confidence
                 conversion_needed := dec.conversion_needed
                 skip_conversion := dec.skip_conversion
                 error := none }
        format_report :=
          some { files_analyzed := filesAnalyzed d, error := none } }

/-! ## Unified processor: COCO→YOLO typed layer
(unified_data_processor.py 147-229)

Raw JSON annotation files are decoded into a typed `CocoDoc` before
processing.  The source raises the corresponding `KeyError` / `TypeError` /
`ValueError` / `ZeroDivisionError` at first use inside the per-file `try`;
here ill-typed parts are rejected when the file is decoded.  Both roads end
in the same per-file error handler; partial effects of a file that fails
midway (categories already merged, label files already written) are not
modelled. -/

/-- Python `dict` insertion on an association list with JSON keys: an
existing key keeps its position and gets the new value, a new key is
appended. -/
def dictInsert {β : Type} (m : List (Json × β)) (k : Json) (v : β) :
    List (Json × β) :=
  if m.any (fun p => p.1 == k) then
    m.map (fun p => if p.1 == k then (k, v) else p)
  else m ++ [(k, v)]

/-- Python `dict` lookup on such an association list. -/
def dictFind {β : Type} (m : List (Json × β)) (k : Json) : Option β :=
  (m.find? (fun p => p.1 == k)).map Prod.snd

/-- Coercion of a JSON value to a Python number for arithmetic (`bool` is an
`int` in Python); anything else raises a `TypeError`. -/
def asNum : Json → Except String Rat
  | .num q => .ok q
  | .bool b => .ok (if b then 1 else 0)
  | _ => .error "TypeError: not a number"

/-- Coercion to a string (`Path(filename)` needs one). -/
def asStr : Json → Except String String
  | .str s => .ok s
  | _ => .error "TypeError: not a string"

/-- Iterating a JSON value with a Python `for` loop; only lists are
supported here (iterating other types either raises or yields elements the
loop body immediately chokes on). -/
def asList : Json → Except String (List Json)
  | .arr xs => .ok xs
  | _ => .error "TypeError: not iterable"

/-- One entry of `coco_data["categories"]`: needs `id` and `name` keys
(line 157-158). -/
def decodeCategory (j : Json) : Except String (Json × Json) :=
  match j with
  | .obj kvs =>
    match jLookup kvs "id", jLookup kvs "name" with
    | some i, some n => .ok (i, n)
    | _, _ => .error "KeyError: category"
  | _ => .error "TypeError: category is not a dict"

/-- Value stored in `image_mapping` for one image id (lines 163-168):
`file_name` is required, width and height default to 640 and 480. -/
structure ImgInfo where
  filename : String
  width : Rat
  height : Rat
deriving DecidableEq

/-- One entry of `coco_data["images"]` (lines 163-168). -/
def decodeImage (j : Json) : Except String (Json × ImgInfo) :=
  match j with
  | .obj kvs =>
    match jLookup kvs "id" with
    | none => .error "KeyError: id"
    | some i =>
      match jLookup kvs "file_name" with
      | none => .error "KeyError: file_name"
      | some fn => do
        let name ← asStr fn
        let w ← asNum ((jLookup kvs "width").getD (.num 640))
        let h ← asNum ((jLookup kvs "height").getD (.num 480))
        pure (i, { filename := name, width := w, height := h })
  | _ => .error "TypeError: image is not a dict"

/-- One entry of `coco_data["annotations"]`: `image_id` is required for the
grouping (line 175); `box` is `some ((x,y,w,h), category_id)` exactly when
both `bbox` and `category_id` are present (an annotation missing either is
skipped by line 196 before its bbox is ever unpacked). -/
structure CocoAnn where
  image_id : Json
  box : Option ((Rat × Rat × Rat × Rat) × Rat)
deriving DecidableEq

/-- Unpacking `x, y, w, h = bbox` (line 201): needs exactly four numeric
elements. -/
def decodeBbox (j : Json) : Except String (Rat × Rat × Rat × Rat) :=
  match j with
  | .arr [a, b, c, d] => do
    let x ← asNum a
    let y ← asNum b
    let w ← asNum c
    let h ← asNum d
    pure (x, y, w, h)
  | _ => .error "ValueError: bbox does not unpack"

/-- One entry of `coco_data["annotations"]` (lines 174-217). -/
def decodeAnn (j : Json) : Except String CocoAnn :=
  match j with
  | .obj kvs =>
    match jLookup kvs "image_id" with
    | none => .error "KeyError: image_id"
    | some iid =>
      match jLookup kvs "bbox", jLookup kvs "category_id" with
      | some b, some c => do
        let bb ← decodeBbox b
        let cid ← asNum c
        pure { image_id := iid, box := some (bb, cid) }
      | _, _ => pure { image_id := iid, box := none }
  | _ => .error "TypeError: annotation is not a dict"

/-- Typed view of one processable COCO annotation file. -/
structure CocoDoc where
  cats : List (Json × Json)
  images : List (Json × ImgInfo)
  anns : List CocoAnn
deriving DecidableEq

/-- Decode a parsed JSON object that passed the `"images" in coco_data`
check, in the evaluation order of the source: categories (156-158), then
images (162-168), then annotations (171-217). -/
def decodeCocoDoc (kvs : List (String × Json)) : Except String CocoDoc := do
  let cats ←
    match jLookup kvs "categories" with
    | none => pure []
    | some c => do
      let xs ← asList c
      xs.mapM decodeCategory
  let images ←
    match jLookup kvs "images" with
    | none => pure []
    | some v => do
      let xs ← asList v
      xs.mapM decodeImage
  let anns ←
    match jLookup kvs "annotations" with
    | none => pure []
    | some v => do
      let xs ← asList v
      xs.mapM decodeAnn
  pure { cats := cats, images := images, anns := anns }

/-- Splitting a character list on a separator character. -/
def splitOnChar (c : Char) (l : List Char) : List (List Char) :=
  l.foldr (fun ch acc =>
    match acc with
    | [] => [[ch]]
    | a :: as => if ch = c then [] :: a :: as else (ch :: a) :: as) [[]]

/-- Python `Path(filename).stem`: last path component minus its final
suffix (a lone leading dot is not a suffix). -/
def pathStem (s : String) : String :=
  let base := (splitOnChar '/' s.toList).getLastD s.toList
  let parts := splitOnChar '.' base
  let front := List.intercalate ['.'] parts.dropLast
  if front = [] then ⟨base⟩ else ⟨front⟩

/-- Per-annotation conversion (lines 199-216): normalized center-form box
and the 0-based class id. -/
structure YoloRec where
  class_id : Rat
  x_center : Rat
  y_center : Rat
  norm_width : Rat
  norm_height : Rat
deriving DecidableEq

/-- Body of the annotation loop (lines 199-216), for an annotation that has
both `bbox` and `category_id`. -/
def yoloRecOf (img_width img_height : Rat) (bbox : Rat × Rat × Rat × Rat)
    (category_id : Rat) : YoloRec :=
  match bbox with
  | (x, y, w, h) =>
    { class_id := if category_id > 0 then category_id - 1 else 0
      x_center := (x + w / 2) / img_width
      y_center := (y + h / 2) / img_height
      norm_width := w / img_width
      norm_height := h / img_height }

/-- All label records emitted for one image (lines 194-217): annotations
missing `bbox` or `category_id` are skipped. -/
def yoloLinesForImage (info : ImgInfo) (anns : List CocoAnn) : List YoloRec :=
  anns.filterMap (fun a =>
    a.box.map (fun bc => yoloRecOf info.width info.height bc.1 bc.2))

/-- Grouping `annotations_by_image` (lines 173-178): Python dict order, keys
in first-appearance order, each key's annotations in list order. -/
def groupByImage (anns : List CocoAnn) : List (Json × List CocoAnn) :=
  anns.foldl (fun g a =>
    if g.any (fun p => p.1 == a.image_id) then
      g.map (fun p => if p.1 == a.image_id then (p.1, p.2 ++ [a]) else p)
    else g ++ [(a.image_id, [a])]) []

/-- `image_mapping` (lines 161-168): a dict keyed by `img["id"]`. -/
def buildImageMapping (imgs : List (Json × ImgInfo)) : List (Json × ImgInfo) :=
  imgs.foldl (fun m p => dictInsert m p.1 p.2) []

/-- Mutable parts of the conversion `results` dict plus the converter's own
accumulators and the label files written so far. -/
structure ConvState where
  errors : List String
  warnings : List String
  files_processed : Nat
  annotations_converted : Nat
  /-- The global `all_categories` id→name dict. -/
  cats : List (Json × Json)
  /-- Label files written under `labels/`, keyed by file name; writing an
  existing name overwrites it. -/
  labels : List (String × List YoloRec)
deriving DecidableEq

def emptyConvState : ConvState :=
  { errors := [], warnings := [], files_processed := 0
    annotations_converted := 0, cats := [], labels := [] }

/-- Writing one label file: plain filesystem overwrite semantics. -/
def writeLabel (labels : List (String × List YoloRec)) (name : String)
    (recs : List YoloRec) : List (String × List YoloRec) :=
  if labels.any (fun p => p.1 == name) then
    labels.map (fun p => if p.1 == name then (name, recs) else p)
  else labels ++ [(name, recs)]

/-- Effect of one successfully decoded annotation file (lines 156-223):
merge its categories, then emit one label file per annotated image whose id
is in the image mapping. -/
def applyDoc (st : ConvState) (doc : CocoDoc) : ConvState :=
  let st := { st with cats := doc.cats.foldl (fun m p => dictInsert m p.1 p.2) st.cats }
  let mapping := buildImageMapping doc.images
  (groupByImage doc.anns).foldl (fun s p =>
    match dictFind mapping p.1 with
    | none => s
    | some info =>
      let recs := yoloLinesForImage info p.2
      { s with
        labels := writeLabel s.labels (pathStem info.filename ++ ".txt") recs
        files_processed := s.files_processed + 1
        annotations_converted := s.annotations_converted + recs.length }) st

/-- Per-file step of the conversion loop (lines 147-229): a parse or
processing failure appends to `errors` and moves on; a parsed value that is
not a dict or lacks `images` is silently skipped. -/
def processJsonFile (st : ConvState) (f : DirEntry) : ConvState :=
  match jsonPayload f with
  | none =>
    { st with errors := st.errors
        ++ ["COCO processing error in " ++ f.name ++ ": JSONDecodeError"] }
  | some j =>
    match j with
    | .obj kvs =>
      if (kvs.map Prod.fst).contains "images" then
        match decodeCocoDoc kvs with
        | .error e =>
          { st with errors := st.errors
              ++ ["COCO processing error in " ++ f.name ++ ": " ++ e] }
        | .ok doc => applyDoc st doc
      else st
    | _ => st

/-- Result of `convert_coco_to_yolo` (the boolean return value plus the
state it left in `results` and on disk). -/
structure ConvOutcome where
  state : ConvState
  success : Bool
  imagesDirCreated : Bool
  labelsDirCreated : Bool
  /-- `images_copied`: one `shutil.copy2` per occurrence of the per-extension
  image enumeration (top-level files occur twice and are copied twice onto
  the same destination name). -/
  images_copied : Nat
deriving DecidableEq

/-- `convert_coco_to_yolo` (lines 124-266), with all filesystem operations
succeeding.  Only the top-level `glob("*.json")` files are processed; if
there are none the function warns and returns `True`. -/
def convert_coco_to_yolo (d : InputDir) : ConvOutcome :=
  let coco_files := topJsonFiles d
  if coco_files.isEmpty then
    { state := { emptyConvState with warnings := ["No JSON files found"] }
      success := true, imagesDirCreated := true, labelsDirCreated := true
      images_copied := (imageFilesEnum d).length }
  else
    { state := coco_files.foldl processJsonFile emptyConvState
      success := true, imagesDirCreated := true, labelsDirCreated := true
      images_copied := (imageFilesEnum d).length }

/-- The broad `except` handler of `convert_coco_to_yolo` (lines 268-275):
an unexpected failure `e` outside the per-file handlers still creates the
(possibly empty) `images/` and `labels/` directories and returns `False`. -/
def convert_coco_to_yolo_onFatal (e : String) : ConvOutcome :=
  { state := { emptyConvState with errors := ["Conversion error: " ++ e] }
    success := false, imagesDirCreated := true, labelsDirCreated := true
    images_copied := 0 }

/-! ## Unified processor: direct YOLO copy (unified_data_processor.py 278-319) -/

/-- The file-count verification (lines 286-304): counts are re-read from
disk after the copy; a mismatch only appends a warning. -/
def verifyCopyWarnings (input_files output_files : Nat) : List String :=
  if input_files ≠ output_files then
    ["File count mismatch: input=" ++ toString input_files
      ++ ", output=" ++ toString output_files]
  else []

/-- Result of `copy_yolo_data_directly`. -/
structure CopyOutcome where
  /-- The output tree after the copy. -/
  output : InputDir
  success : Bool
  errors : List String
  warnings : List String
  files_processed : Nat
  files_copied : Nat
deriving DecidableEq

/-- `copy_yolo_data_directly` (lines 278-312), with all filesystem
operations succeeding: an existing output tree is removed with
`shutil.rmtree`, then `shutil.copytree` duplicates the input tree verbatim,
then the two trees are recounted. -/
def copy_yolo_data_directly (input : InputDir) (oldOutput : Option InputDir) :
    CopyOutcome :=
  let _cleared : Option InputDir :=
    match oldOutput with
    | some _ => none
    | none => none
  let output := input
  { output := output
    success := true
    errors := []
    warnings := verifyCopyWarnings input.length output.length
    files_processed := input.length
    files_copied := output.length }

/-- The broad `except` handler of `copy_yolo_data_directly` (lines 314-319):
a copy failure `e` creates an empty output directory and returns `False`. -/
def copy_yolo_onFatal (e : String) : CopyOutcome :=
  { output := [], success := false, errors := ["Copy error: " ++ e]
    warnings := [], files_processed := 0, files_copied := 0 }

/-! ## Unified processor: process_data (unified_data_processor.py 20-121) -/

/-- Result of running a piece of Python code: normal value or an uncaught
exception. -/
inductive PyResult (α : Type) where
  | ok (a : α) : PyResult α
  | raised (e : String) : PyResult α
deriving DecidableEq

/-- Python `format_info.get(key, default)`: works on a `dict`, raises
`AttributeError` on every other `json.load` result (list, str, int, float,
bool, None — none of them has a `get` method). -/
def pyDictGet (j : Json) (k : String) (dflt : Json) : PyResult Json :=
  match j with
  | .obj kvs => .ok ((jLookup kvs k).getD dflt)
  | _ => .raised "AttributeError"

/-- Rendering a JSON value inside an f-string; container rendering is
abstracted. -/
def pyStr : Json → String
  | .str s => s
  | .num q => toString q
  | .bool true => "True"
  | .bool false => "False"
  | .null => "None"
  | .arr _ => "[...]"
  | .obj _ => "\x7b...\x7d"

/-- The fallback `format_info` dict used when the decision file is missing
or unreadable (lines 44-48 and 55-59). -/
def fallbackFormatInfo : Json :=
  .obj [("detected_format", .str "unknown"), ("confidence", .num 0),
        ("conversion_needed", .bool true)]

/-- The `processing_results` report written by `process_data` (timestamp not
modelled; `detected_format` is whatever JSON value `.get` returned). -/
structure ProcReport where
  processing_type : String
  success : Bool
  detected_format : Json
  files_processed : Nat
  errors : List String
  warnings : List String
deriving DecidableEq

/-- Final state of one processor run: the report file (if written) and
whether the output directory exists afterwards. -/
structure ProcOutcome where
  report : Option ProcReport
  outputDirCreated : Bool
deriving DecidableEq

/-- `process_data` (lines 20-121).  `input` is `none` when the input path
does not exist; `decisionFile` is `none` when the decision file is missing,
`some none` when reading or parsing it raises, `some (some j)` when it
parses to `j`; `oldOutput` is a pre-existing output tree (used only by the
direct-copy branch).  Filesystem writes are modelled as succeeding. -/
def process_data (input : Option InputDir) (decisionFile : Option (Option Json))
    (oldOutput : Option InputDir) : PyResult ProcOutcome :=
  let format_info : Json :=
    match decisionFile with
    | none => fallbackFormatInfo
    | some none => fallbackFormatInfo
    | some (some j) => j
  match pyDictGet format_info "detected_format" (.str "unknown") with
  | .raised e => .raised e
  | .ok detected =>
    match input with
    | none =>
      .ok { report := some
              { processing_type := "none", success := false
                detected_format := detected, files_processed := 0
                errors := ["Input path not found"], warnings := [] }
            outputDirCreated := true }
    | some dir =>
      if detected = .str "coco" then
        let c := convert_coco_to_yolo dir
        .ok { report := some
                { processing_type := "coco_to_yolo_conversion"
                  success := c.success, detected_format := detected
                  files_processed := c.state.files_processed
                  errors := c.state.errors, warnings := c.state.warnings }
              outputDirCreated := true }
      else if detected = .str "yolo" then
        let c := copy_yolo_data_directly dir oldOutput
        .ok { report := some
                { processing_type := "yolo_direct_copy"
                  success := c.success, detected_format := detected
                  files_processed := c.files_processed
                  errors := c.errors, warnings := c.warnings }
              outputDirCreated := true }
      else
        .ok { report := some
                { processing_type := "unknown_format", success := true
                  detected_format := detected, files_processed := 0
                  errors := []
                  warnings := ["Unsupported format: " ++ pyStr detected] }
              outputDirCreated := true }

/-! ## Spec-side definitions

Definitions in this section follow the wording of the specification (or of
an amended claim) rather than the source; each is compared with the
corresponding source-derived definition by a theorem. -/

/-- Decision rule as worded in the spec: COCO is checked first and wins
ties; confidence is `min(0.9, 0.3 + score × 0.15)`; else YOLO when its score
reaches 2; else unknown with zero confidence. -/
def specDecisionRule (coco_score yolo_score : Nat) : FormatDecision :=
  if coco_score ≥ yolo_score ∧ coco_score ≥ 2 then
    { detected_format := "coco"
      confidence := min 0.9 (0.3 + (coco_score : Rat) * 0.15)
      conversion_needed := true
      skip_conversion := false }
  else if yolo_score ≥ 2 then
    { detected_format := "yolo"
      confidence := min 0.9 (0.3 + (yolo_score : Rat) * 0.15)
      conversion_needed := false
      skip_conversion := true }
  else
    { detected_format := "unknown"
      confidence := 0.0
      conversion_needed := true
      skip_conversion := false }

/-- YOLO label record as worded in the spec:
`x_center = (x + w/2) / img_width`, `y_center = (y + h/2) / img_height`,
`norm_w = w/img_width`, `norm_h = h/img_height`, and
`yolo_class = coco_category_id - 1` unless `coco_category_id <= 0`, in which
case `yolo_class = 0`. -/
def specYoloLine (img_width img_height x y w h coco_category_id : Rat) :
    YoloRec :=
  { class_id := if coco_category_id ≤ 0 then 0 else coco_category_id - 1
    x_center := (x + w / 2) / img_width
    y_center := (y + h / 2) / img_height
    norm_width := w / img_width
    norm_height := h / img_height }

/-- Amended COCO score (claim C2 as corrected): a distinct parseable JSON
file contributes its per-occurrence points once when nested and twice when
at top level, because `glob("*.json") + glob("**/*.json")` lists top-level
files in both passes. -/
def cocoScoreAmended (d : InputDir) : Nat :=
  (d.map (fun f =>
    if isJsonName f then (if f.nested then 1 else 2) * cocoPoints f else 0)).sum

/-- Amended YOLO score (claim C5 as corrected): +2 per occurrence of a
`*.txt` file whose lowercased basename is `classes.txt`, `class.names` or
`obj.names` (top-level occurrences count twice; names not ending in `.txt`
are never inspected), plus the annotation bonus computed over the first 10
occurrences of the per-extension image enumeration. -/
def yoloScoreAmended (d : InputDir) : Nat :=
  2 * (d.map (fun f =>
        if isTxtName f && isClassesName f.name then
          (if f.nested then 1 else 2) else 0)).sum
    + (if 3 ≤ yoloAnnCount d then 3
       else if 1 ≤ yoloAnnCount d then 1 else 0)

/-- Was the decision file missing, unreadable, or a JSON object (the inputs
on which `process_data` is exception-free)? -/
def decisionFileOk : Option (Option Json) → Bool
  | some (some j) => j.isObj
  | _ => true

/-- Did the processor run write its report file? -/
def reportWasWritten : PyResult ProcOutcome → Bool
  | .ok o => o.report.isSome
  | .raised _ => false

/-- Did the processor run leave the output directory existing? -/
def outputDirWasCreated : PyResult ProcOutcome → Bool
  | .ok o => o.outputDirCreated
  | .raised _ => false

/-! ## Helper lemmas -/

/-- Length of a `filterMap` that keeps exactly the elements satisfying a
Boolean predicate. -/
theorem length_filterMap_ite {α β : Type} (l : List α) (p : α → Bool)
    (g : α → β) :
    (l.filterMap (fun a => if p a then some (g a) else none)).length
      = l.countP p := by
  induction l with
  | nil => rfl
  | cons a t ih =>
    by_cases h : p a <;>
      simp [List.filterMap_cons, h, ih, List.countP_cons]

/-- Sum over a Boolean filter as a sum of guarded terms over the whole
list. -/
theorem sum_map_filter {α : Type} (l : List α) (p : α → Bool) (g : α → Nat) :
    ((l.filter p).map g).sum
      = (l.map (fun a => if p a then g a else 0)).sum := by
  induction l with
  | nil => rfl
  | cons a t ih =>
    by_cases h : p a <;> simp [List.filter_cons, h, ih]

/-- Pointwise sum of two guarded maps. -/
theorem sum_map_add {α : Type} (l : List α) (f g : α → Nat) :
    (l.map f).sum + (l.map g).sum = (l.map (fun a => f a + g a)).sum := by
  induction l with
  | nil => rfl
  | cons a t ih => simp [List.map_cons, List.sum_cons]; omega

/-- Count over a Boolean filter as a sum of guarded ones. -/
theorem countP_eq_sum_map {α : Type} (l : List α) (p : α → Bool) :
    l.countP p = (l.map (fun a => if p a then 1 else 0)).sum := by
  induction l with
  | nil => rfl
  | cons a t ih =>
    by_cases h : p a <;> simp [List.countP_cons, h, ih, Nat.add_comm]

/-! ## Claim theorems -/

/-- Classes-file occurrences across the two txt globs, as a weighted sum
over the directory. -/
theorem classes_filter_weight (d : InputDir) :
    ((d.filter (fun f => !f.nested && isTxtName f)).filter
        (fun f => isClassesName f.name)).length
      + ((d.filter isTxtName).filter (fun f => isClassesName f.name)).length
      = (d.map (fun f =>
          if isTxtName f && isClassesName f.name then
            (if f.nested then 1 else 2) else 0)).sum := by
  induction d with
  | nil => rfl
  | cons f t ih =>
    by_cases ht : isTxtName f <;> by_cases hn : f.nested = true <;>
      by_cases hcl : isClassesName f.name <;>
        simp [List.filter_cons, ht, hn, hcl] at ih ⊢ <;> omega

/-- COCO points across the two JSON globs, as a weighted sum over the
directory. -/
theorem coco_filter_weight (d : InputDir) :
    ((d.filter (fun f => !f.nested && isJsonName f)).map cocoPoints).sum
      + ((d.filter isJsonName).map cocoPoints).sum
      = (d.map (fun f =>
          if isJsonName f then
            (if f.nested then 1 else 2) * cocoPoints f else 0)).sum := by
  induction d with
  | nil => rfl
  | cons f t ih =>
    by_cases hj : isJsonName f <;> by_cases hn : f.nested = true <;>
      simp [List.filter_cons, hj, hn] at ih ⊢ <;> omega

/-- A top-level JSON file whose object holds all of `images`, `annotations`
and `categories`. -/
def cocoFullJson : Json :=
  .obj [("images", .arr []), ("annotations", .arr []), ("categories", .arr [])]

/-- Directory with a single top-level strong-COCO JSON file. -/
def exDirC2 : InputDir :=
  [{ nested := false, name := "ann.json", content := .jsonC (some cocoFullJson) }]

/-- C2 counterexample: a directory holding exactly one parseable top-level
JSON file with all three COCO keys gets `coco_score = 6`, not the `+3` the
claim asserts — `glob("*.json") + glob("**/*.json")` lists top-level files
twice. -/
theorem cocoScore_counterexample :
    cocoScore exDirC2 = 6 ∧ ¬ cocoScore exDirC2 = 3 := by
  constructor
  · decide
  · decide

/-- C2 as amended: `coco_score` is the sum over files of the per-occurrence
points (+3 strong, +1 partial) weighted by the number of occurrences in the
enumeration — twice for top-level files, once for nested ones. -/
theorem cocoScore_weighted_by_occurrences (d : InputDir) :
    cocoScore d = cocoScoreAmended d := by
  unfold cocoScore cocoScoreAmended jsonFilesEnum topJsonFiles
  rw [List.map_append, List.sum_append]
  exact coco_filter_weight d

/-- C3: for every input directory, the decision the detector derives from
the final scores is exactly the spec's rule (COCO checked first and winning
ties, confidence `min(0.9, 0.3 + score*0.15)`, else YOLO at score ≥ 2, else
unknown with confidence 0). -/
theorem detector_decision_rule (d : InputDir) :
    decideFormat (cocoScore d) (yoloScore d)
      = specDecisionRule (cocoScore d) (yoloScore d) := rfl

/-- Directory with a single top-level `classes.txt`. -/
def exDirC5 : InputDir :=
  [{ nested := false, name := "classes.txt", content := .plainC }]

/-- C5 counterexample: a directory holding exactly one top-level
`classes.txt` gets `yolo_score = 4`, not the `+2` the claim asserts — the
file occurs twice in `glob("*.txt") + glob("**/*.txt")` and the loop adds
+2 per occurrence. -/
theorem yoloScore_counterexample :
    yoloScore exDirC5 = 4 ∧ ¬ yoloScore exDirC5 = 2 := by
  constructor
  · decide
  · decide

/-- C5 as amended: `yolo_score` is +2 per occurrence of a `*.txt` file
whose lowercased name is a classes-file name (top-level files occur twice;
names such as `obj.names` never match the `*.txt` glob and never score),
plus 3 when at least 3 of the first 10 image-enumeration occurrences have a
valid same-stem annotation, or 1 when 1 or 2 do — occurrences, not distinct
files. -/
theorem yoloScore_weighted_by_occurrences (d : InputDir) :
    yoloScore d = yoloScoreAmended d := by
  unfold yoloScore yoloScoreAmended classesOccurrences txtFilesEnum
    yoloAnnBonus
  rw [List.filter_append, List.length_append, classes_filter_weight d]
  congr 1

/-- Directory with 20 miscellaneous top-level files plus one top-level
strong-COCO JSON file (21 files in total). -/
def exDirC6 : InputDir :=
  (List.range 20).map (fun i =>
    { nested := false, name := "f" ++ toString i ++ ".bin", content := .plainC })
    ++ [{ nested := false, name := "ann.json", content := .jsonC (some cocoFullJson) }]

/-- C6 counterexample: with 21 files of which one is a top-level strong-COCO
JSON file, `files_analyzed` has 22 entries — the initial listing is
truncated to 20, but the detection loops keep appending past the bound. -/
theorem filesAnalyzed_counterexample :
    (filesAnalyzed exDirC6).length = 22
      ∧ ¬ (filesAnalyzed exDirC6).length ≤ 20 := by
  constructor
  · decide
  · decide

/-- C6 as amended: `files_analyzed` holds at most 20 entries from the
initial `rglob` listing plus one appended entry per strong-COCO occurrence
of the JSON enumeration and one per classes-file occurrence of the txt
enumeration; the 20-entry bound only limits the initial listing. -/
theorem filesAnalyzed_length_bound (d : InputDir) :
    (filesAnalyzed d).length
      ≤ 20 + (jsonFilesEnum d).countP (fun f => isStrongCoco f)
          + (txtFilesEnum d).countP (fun f => isClassesName f.name) := by
  unfold filesAnalyzed
  rw [List.length_append, List.length_append]
  have h1 : ((jsonFilesEnum d).filterMap
        (fun f => if isStrongCoco f then some f.name else none)).length
      = (jsonFilesEnum d).countP (fun f => isStrongCoco f) :=
    length_filterMap_ite (jsonFilesEnum d) (fun f => isStrongCoco f)
      (fun f => f.name)
  have h2 : ((txtFilesEnum d).filterMap
        (fun f => if isClassesName f.name then some f.name else none)).length
      = (txtFilesEnum d).countP (fun f => isClassesName f.name) :=
    length_filterMap_ite (txtFilesEnum d) (fun f => isClassesName f.name)
      (fun f => f.name)
  have h20 : ((d.take 20).map (·.name)).length ≤ 20 := by
    rw [List.length_map]
    exact (List.length_take 20 d).le.trans (Nat.min_le_left _ _)
  omega

/-- C4: the converter's per-annotation computation agrees with the spec's
normalized center-form formulas and 0-based class-id remap, image width and
height default to 640 and 480 when absent from the image record, and the
spec's worked example holds: bbox `[10,20,30,40]` on a 100×200 image gives
`(x_center, y_center, norm_w, norm_h) = (0.25, 0.20, 0.30, 0.20)` with COCO
category 1 mapping to class 0.  (The `:.6f` rendering of the emitted line is
modelled by the record of its five numeric fields.) -/
theorem coco_to_yolo_line_formula (x y w h W H c : Rat)
    (_hW : W ≠ 0) (_hH : H ≠ 0) :
    yoloRecOf W H (x, y, w, h) c = specYoloLine W H x y w h c
      ∧ (∀ (i : Json) (nm : String),
          decodeImage (.obj [("id", i), ("file_name", .str nm)])
            = .ok (i, { filename := nm, width := 640, height := 480 }))
      ∧ yoloRecOf 100 200 (10, 20, 30, 40) 1
          = { class_id := 0, x_center := 0.25, y_center := 0.20
              norm_width := 0.30, norm_height := 0.20 } := by
  refine ⟨?_, ?_, by unfold yoloRecOf; norm_num⟩
  · unfold yoloRecOf specYoloLine
    have hcls : (if c > 0 then c - 1 else 0) = (if c ≤ 0 then 0 else c - 1) := by
      rcases le_or_lt c 0 with hc | hc
      · rw [if_neg (not_lt.mpr hc), if_pos hc]
      · rw [if_pos hc, if_neg (not_le.mpr hc)]
    simp only [hcls]
  · intro i nm
    rfl

/-- Witness for `coco_to_yolo_line_formula` at the spec's worked example. -/
theorem coco_to_yolo_line_formula_witness :
    (100 : Rat) ≠ 0 ∧ (200 : Rat) ≠ 0
      ∧ yoloRecOf 100 200 (10, 20, 30, 40) 1
          = specYoloLine 100 200 10 20 30 40 1 := by
  refine ⟨by norm_num, by norm_num, ?_⟩
  exact (coco_to_yolo_line_formula 10 20 30 40 100 200 1
    (by norm_num) (by norm_num)).1

/-- C7: for every input path (existing or not) and whether or not the
analysis fails unexpectedly, the detector writes both the format-info file
and the format-report file; an unexpected analysis failure downgrades the
decision to `detected_format = "error"` with the exception message attached
(and initial values for the remaining fields), both files still written. -/
theorem detector_always_writes_both_files
    (input : Option InputDir) (fault : Option String)
    (d : InputDir) (e : String) :
    (detect_data_format input fault).format_info.isSome = true
      ∧ (detect_data_format input fault).format_report.isSome = true
      ∧ (detect_data_format (some d) (some e)).format_info
          = some { detected_format := "error", confidence := 0.0
                   conversion_needed := true, skip_conversion := false
                   error := some e } := by
  refine ⟨?_, ?_, rfl⟩
  · cases input with
    | none => rfl
    | some d2 => cases fault <;> rfl
  · cases input with
    | none => rfl
    | some d2 => cases fault <;> rfl

/-- C8: the direct YOLO copy replaces the output tree with the input tree
regardless of what was there before (the old output is removed entirely
first), so a second run produces the same output as a single run; it
returns success, and a file-count mismatch during verification only appends
a warning. -/
theorem copy_yolo_idempotent (input : InputDir) (old1 old2 : Option InputDir)
    (a b : Nat) :
    (copy_yolo_data_directly input old1).output = input
      ∧ copy_yolo_data_directly input old1 = copy_yolo_data_directly input old2
      ∧ copy_yolo_data_directly input
          (some (copy_yolo_data_directly input old1).output)
          = copy_yolo_data_directly input none
      ∧ (copy_yolo_data_directly input old1).success = true
      ∧ (a ≠ b → verifyCopyWarnings a b ≠ []) := by
  refine ⟨rfl, rfl, rfl, rfl, ?_⟩
  intro h
  simp [verifyCopyWarnings, h]

/-- Witness for `copy_yolo_idempotent` at a concrete mismatching count. -/
theorem copy_yolo_idempotent_witness :
    (0 : Nat) ≠ 1 ∧ verifyCopyWarnings 0 1 ≠ [] := by
  have h := copy_yolo_idempotent [] none none 0 1
  exact ⟨by decide, h.2.2.2.2 (by decide)⟩

/-- Directory whose only (strong-COCO) JSON file lies in a subdirectory. -/
def exDirC9 : InputDir :=
  [{ nested := true, name := "ann.json", content := .jsonC (some cocoFullJson) }]

/-- C9: the converter enumerates only top-level `*.json` files while the
detector also scans nested ones, so on any directory without top-level JSON
files — even one the detector labels `coco` from nested annotation files —
the conversion writes no label files, warns `No JSON files found`, and
still returns success. -/
theorem nested_coco_converts_nothing (d : InputDir)
    (hTop : topJsonFiles d = [])
    (_hCoco : ((detect_data_format (some d) none).format_info).map
        (fun r => r.detected_format) = some "coco") :
    (convert_coco_to_yolo d).success = true
      ∧ "No JSON files found" ∈ (convert_coco_to_yolo d).state.warnings
      ∧ (convert_coco_to_yolo d).state.labels = [] := by
  unfold convert_coco_to_yolo
  rw [hTop]
  exact ⟨rfl, List.mem_singleton.mpr rfl, rfl⟩

/-- Witness for `nested_coco_converts_nothing`: a directory holding one
nested strong-COCO JSON file is labelled `coco` by the detector, yet the
converter emits no labels. -/
theorem nested_coco_converts_nothing_witness :
    topJsonFiles exDirC9 = []
      ∧ ((detect_data_format (some exDirC9) none).format_info).map
          (fun r => r.detected_format) = some "coco"
      ∧ (convert_coco_to_yolo exDirC9).state.labels = [] := by
  refine ⟨by decide, by decide, ?_⟩
  exact (nested_coco_converts_nothing exDirC9 (by decide) (by decide)).2.2

/-- The per-image emission loop never touches the `errors` list. -/
theorem applyDoc_errors (st : ConvState) (doc : CocoDoc) :
    (applyDoc st doc).errors = st.errors := by
  unfold applyDoc
  have key : ∀ (groups : List (Json × List CocoAnn)) (s : ConvState),
      (groups.foldl (fun s p =>
        match dictFind (buildImageMapping doc.images) p.1 with
        | none => s
        | some info =>
          let recs := yoloLinesForImage info p.2
          { s with
            labels := writeLabel s.labels (pathStem info.filename ++ ".txt") recs
            files_processed := s.files_processed + 1
            annotations_converted := s.annotations_converted + recs.length })
        s).errors = s.errors := by
    intro groups
    induction groups with
    | nil => intro s; rfl
    | cons g t ih =>
      intro s
      rw [List.foldl_cons]
      cases h : dictFind (buildImageMapping doc.images) g.1 with
      | none => exact ih s
      | some info => exact (ih _).trans rfl
  exact key _ _

/-- One conversion-loop step never shrinks the `errors` list. -/
theorem processJsonFile_errors_le (st : ConvState) (f : DirEntry) :
    st.errors.length ≤ (processJsonFile st f).errors.length := by
  unfold processJsonFile
  repeat' split
  all_goals first
    | exact Nat.le_refl _
    | simp
    | (rw [applyDoc_errors])

/-- An unparseable file appends exactly one error message. -/
theorem processJsonFile_unparseable (st : ConvState) (f : DirEntry)
    (h : jsonPayload f = none) :
    (processJsonFile st f).errors.length = st.errors.length + 1 := by
  unfold processJsonFile
  rw [h]
  simp

/-- When every file of the loop is unparseable, each one appends an error. -/
theorem foldl_process_errors (files : List DirEntry) (st : ConvState)
    (hall : files.all (fun f => (jsonPayload f).isNone) = true) :
    (files.foldl processJsonFile st).errors.length
      = st.errors.length + files.length := by
  induction files generalizing st with
  | nil => simp
  | cons f t ih =>
    rw [List.all_cons, Bool.and_eq_true] at hall
    rw [List.foldl_cons, ih _ hall.2,
      processJsonFile_unparseable st f (Option.isNone_iff_eq_none.mp hall.1)]
    simp only [List.length_cons]
    omega

/-- C10: `convert_coco_to_yolo` returns `True` whenever its top-level body
completes — even when every JSON file fails to parse and the `errors` list
is non-empty — and returns `False` only from its broad handler for an
unexpected failure outside the per-file handlers, which still creates the
(possibly empty) `images/` and `labels/` directories. -/
theorem convert_success_despite_errors (d : InputDir) (e : String) :
    (convert_coco_to_yolo d).success = true
      ∧ ((topJsonFiles d ≠ []
            ∧ (topJsonFiles d).all (fun f => (jsonPayload f).isNone) = true) →
          (convert_coco_to_yolo d).state.errors ≠ [])
      ∧ (convert_coco_to_yolo_onFatal e).success = false
      ∧ (convert_coco_to_yolo_onFatal e).imagesDirCreated = true
      ∧ (convert_coco_to_yolo_onFatal e).labelsDirCreated = true := by
  refine ⟨?_, ?_, rfl, rfl, rfl⟩
  · unfold convert_coco_to_yolo
    dsimp only
    split <;> rfl
  · rintro ⟨hne, hall⟩
    have he : (topJsonFiles d).isEmpty = false := by
      cases h : topJsonFiles d with
      | nil => exact absurd h hne
      | cons a t => rfl
    unfold convert_coco_to_yolo
    dsimp only
    rw [he]
    simp only [Bool.false_eq_true, if_false]
    intro hnil
    have hlen := foldl_process_errors (topJsonFiles d) emptyConvState hall
    rw [hnil] at hlen
    have : (topJsonFiles d).length ≠ 0 := by
      intro h0
      exact hne (List.eq_nil_of_length_eq_zero h0)
    simp [emptyConvState] at hlen
    omega

/-- Directory holding a single malformed top-level JSON file. -/
def exDirC10 : InputDir :=
  [{ nested := false, name := "bad.json", content := .jsonC none }]

/-- Witness for `convert_success_despite_errors`: every top-level JSON file
of `exDirC10` is unparseable, yet the conversion succeeds with a non-empty
error list. -/
theorem convert_success_despite_errors_witness :
    (topJsonFiles exDirC10 ≠ []
        ∧ (topJsonFiles exDirC10).all (fun f => (jsonPayload f).isNone) = true)
      ∧ (convert_coco_to_yolo exDirC10).success = true
      ∧ (convert_coco_to_yolo exDirC10).state.errors ≠ [] := by
  have h := convert_success_despite_errors exDirC10 "e"
  exact ⟨⟨by decide, by decide⟩, h.1, h.2.1 ⟨by decide, by decide⟩⟩

/-- C1 counterexample: when the decision file contains valid JSON that is
not an object (here the empty array), `process_data` raises
`AttributeError` at `format_info.get("detected_format", "unknown")` —
before any report is written or output directory created — even though the
input directory exists. -/
theorem process_data_nonobject_counterexample :
    process_data (some []) (some (some (.arr []))) none
      = PyResult.raised "AttributeError" := rfl

/-- C1 as amended: `process_data` terminates normally, writes the
processing report and creates the output directory whenever the decision
file is missing, unreadable, or parses to a JSON object (in particular also
when the input directory is missing); but when the decision file holds JSON
that is not an object, it raises `AttributeError` instead. -/
theorem process_data_writes_report_and_output (input : Option InputDir)
    (df : Option (Option Json)) (oldOutput : Option InputDir)
    (h : decisionFileOk df = true) :
    reportWasWritten (process_data input df oldOutput) = true
      ∧ outputDirWasCreated (process_data input df oldOutput) = true := by
  match df with
  | none =>
    cases input with
    | none => exact ⟨rfl, rfl⟩
    | some dir => exact ⟨rfl, rfl⟩
  | some none =>
    cases input with
    | none => exact ⟨rfl, rfl⟩
    | some dir => exact ⟨rfl, rfl⟩
  | some (some j) =>
    match j with
    | .obj kvs =>
      cases input with
      | none => exact ⟨rfl, rfl⟩
      | some dir =>
        unfold process_data
        dsimp only
        unfold pyDictGet
        dsimp only
        split
        · exact ⟨rfl, rfl⟩
        · split
          · exact ⟨rfl, rfl⟩
          · exact ⟨rfl, rfl⟩
    | .null => exact absurd h (by decide)
    | .bool b => exact absurd h (by simp [decisionFileOk, Json.isObj])
    | .num q => exact absurd h (by simp [decisionFileOk, Json.isObj])
    | .str s => exact absurd h (by simp [decisionFileOk, Json.isObj])
    | .arr l => exact absurd h (by simp [decisionFileOk, Json.isObj])

/-- Witness for `process_data_writes_report_and_output` with an existing
empty input directory and a decision file holding a `coco` object. -/
theorem process_data_writes_report_witness :
    decisionFileOk (some (some (.obj [("detected_format", .str "coco")]))) = true
      ∧ reportWasWritten (process_data (some [])
          (some (some (.obj [("detected_format", .str "coco")]))) none) = true
      ∧ outputDirWasCreated (process_data (some [])
          (some (some (.obj [("detected_format", .str "coco")]))) none) = true := by
  have h := process_data_writes_report_and_output (some [])
    (some (some (.obj [("detected_format", .str "coco")]))) none rfl
  exact ⟨rfl, h.1, h.2⟩
